import Mathlib

/-!
Verification development for the ABPedSim preparation tool
(`abPedestrianTool.py`).  The Python functions `defineBorders`,
`findStations`, `factoring`, `randomPoint` and `defineStartVariables` are
shallowly embedded below.  Geometry is restricted to points and
axis-aligned rectangles over `ℚ` (a subclass of the shapely geometries the
tool manipulates); `buffer` on a box is modelled exactly for points as the
set of points within the given distance of the rectangle.  Randomness from
Python's seeded `random` module is modelled as explicit oracle streams, and
Python exceptions (`ValueError` from `randint` on an empty range,
`IndexError`, `RecursionError`) as an explicit error type.
-/

/-- A planar point with rational coordinates. -/
structure Pt where
  x : ℚ
  y : ℚ
deriving DecidableEq, Repr

/-- Squared Euclidean distance between two points. -/
def distSq (p q : Pt) : ℚ :=
  (p.x - q.x) * (p.x - q.x) + (p.y - q.y) * (p.y - q.y)

/-- An axis-aligned rectangle, used both for building footprints and for the
bounding box `box(minx, miny, maxx, maxy)`. -/
structure Rect where
  minx : ℚ
  miny : ℚ
  maxx : ℚ
  maxy : ℚ
deriving DecidableEq, Repr

/-- Horizontal distance from a point to a rectangle's x-range (0 when the
abscissa lies inside the range). -/
def gapX (p : Pt) (r : Rect) : ℚ :=
  if p.x < r.minx then r.minx - p.x else if r.maxx < p.x then p.x - r.maxx else 0

/-- Vertical distance from a point to a rectangle's y-range. -/
def gapY (p : Pt) (r : Rect) : ℚ :=
  if p.y < r.miny then r.miny - p.y else if r.maxy < p.y then p.y - r.maxy else 0

/-- Squared distance from a point to a rectangle (0 when inside). -/
def ptRectGapSq (p : Pt) (r : Rect) : ℚ :=
  gapX p r * gapX p r + gapY p r * gapY p r

/-- Horizontal gap between the x-ranges of two rectangles. -/
def rgapX (a b : Rect) : ℚ :=
  if a.maxx < b.minx then b.minx - a.maxx
  else if b.maxx < a.minx then a.minx - b.maxx else 0

/-- Vertical gap between the y-ranges of two rectangles. -/
def rgapY (a b : Rect) : ℚ :=
  if a.maxy < b.miny then b.miny - a.maxy
  else if b.maxy < a.miny then a.miny - b.maxy else 0

/-- Squared gap distance between two rectangles (0 when they touch or
overlap). -/
def rectGapSq (a b : Rect) : ℚ :=
  rgapX a b * rgapX a b + rgapY a b * rgapY a b

/-- A bounding box as produced by `box(...)` and its `buffer(d)` expansions:
the region of all points within distance `r` of `rect`.  With `r = 0` this
is the plain rectangle; shapely's `buffer` (with round corners) is modelled
exactly by increasing `r`. -/
structure BBox where
  rect : Rect
  r : ℚ
deriving DecidableEq, Repr

/-- `bbox.buffer(d)` from the Python tool: the `d`-neighbourhood of a convex
region enlarges the buffer radius by `d`. -/
def BBox.buffer (b : BBox) (d : ℚ) : BBox :=
  { b with r := b.r + d }

/-- `point.intersects(bbox)`: the point lies within distance `b.r` of the
core rectangle. -/
def ptInBBox (p : Pt) (b : BBox) : Bool :=
  decide (ptRectGapSq p b.rect ≤ b.r * b.r)

/-- `building.intersects(bbox.buffer(50))` for a rectangular building: the
rectangle comes within distance `b.r` of the box rectangle. -/
def rectInBBox (a : Rect) (b : BBox) : Bool :=
  decide (rectGapSq a b.rect ≤ b.r * b.r)

/-- `station.intersects(building)` for a point station and a rectangular
building. -/
def ptInRect (p : Pt) (r : Rect) : Bool :=
  decide (r.minx ≤ p.x ∧ p.x ≤ r.maxx ∧ r.miny ≤ p.y ∧ p.y ≤ r.maxy)

/-- Transport-mode tags written into the gateway layer by `findStations`. -/
inductive Mode where
  | bahn
  | bus
  | rad
  | auto
deriving DecidableEq, Repr

/-- Embedding of `factoring(bahnPeds, busPeds, radPeds, autoPeds)`
(abPedestrianTool.py lines 94-169): the nested `len(...) > 0` decision tree
assigning the four mode factors, returned as
`(bahnFactor, busFactor, radFactor, autoFactor)`. -/
def factoring (bahnPeds busPeds radPeds autoPeds : List Pt) : ℚ × ℚ × ℚ × ℚ :=
  if bahnPeds.length > 0 then
    if busPeds.length > 0 then
      if radPeds.length > 0 then
        if autoPeds.length > 0 then (55/100, 25/100, 10/100, 10/100)
        else (60/100, 30/100, 10/100, 0)
      else
        if autoPeds.length > 0 then (60/100, 30/100, 0, 10/100)
        else (70/100, 30/100, 0, 0)
    else
      if radPeds.length > 0 then
        if autoPeds.length > 0 then (80/100, 0, 10/100, 10/100)
        else (90/100, 0, 10/100, 0)
      else
        if autoPeds.length > 0 then (90/100, 0, 0, 10/100)
        else (1, 0, 0, 0)
  else
    if busPeds.length > 0 then
      if radPeds.length > 0 then
        if autoPeds.length > 0 then (0, 70/100, 15/100, 15/100)
        else (0, 75/100, 25/100, 0)
      else
        if autoPeds.length > 0 then (0, 50/100, 0, 50/100)
        else (0, 1, 0, 0)
    else
      if radPeds.length > 0 then
        if autoPeds.length > 0 then (0, 0, 40/100, 60/100)
        else (0, 0, 1, 0)
      else (0, 0, 0, 1)

/-- Transcription of the spec's section 4.3 decision table, keyed by the
four availability bits (rail, bus, bike, car); for comparison against the
code's `factoring`.  The all-absent pattern is outside the table's 15 rows
and is only reached under a falsified hypothesis below. -/
def modalSplitTable (rail bus bike car : Bool) : ℚ × ℚ × ℚ × ℚ :=
  match rail, bus, bike, car with
  | true, true, true, true => (55/100, 25/100, 10/100, 10/100)
  | true, true, true, false => (60/100, 30/100, 10/100, 0)
  | true, true, false, true => (60/100, 30/100, 0, 10/100)
  | true, true, false, false => (70/100, 30/100, 0, 0)
  | true, false, true, true => (80/100, 0, 10/100, 10/100)
  | true, false, true, false => (90/100, 0, 10/100, 0)
  | true, false, false, true => (90/100, 0, 0, 10/100)
  | true, false, false, false => (1, 0, 0, 0)
  | false, true, true, true => (0, 70/100, 15/100, 15/100)
  | false, true, true, false => (0, 75/100, 25/100, 0)
  | false, true, false, true => (0, 50/100, 0, 50/100)
  | false, true, false, false => (0, 1, 0, 0)
  | false, false, true, true => (0, 0, 40/100, 60/100)
  | false, false, true, false => (0, 0, 1, 0)
  | false, false, false, true => (0, 0, 0, 1)
  | false, false, false, false => (0, 0, 0, 1)

/-- Embedding of `defineBorders(buildings, bbox)` (abPedestrianTool.py lines
41-52): keep every building whose geometry intersects `bbox.buffer(50)`. -/
def defineBorders (buildings : List Rect) (bbox : BBox) : List Rect :=
  buildings.filter (fun building => rectInBBox building (bbox.buffer 50))

/-- Remove the first occurrence of `a`, Python's `list.remove(a)` (when `a`
is present). -/
def removeFirst [DecidableEq α] : List α → α → List α
  | [], _ => []
  | x :: xs, a => if x = a then xs else x :: removeFirst xs a

/-- One step-indexed pass of Python's `for station in lst: if p(station):
lst.remove(station)`: the for-statement keeps a cursor `i` into the mutated
list, so removing the cursor element skips the element that slides into its
place.  The counter argument only bounds the iteration; it is set to the
initial length, which the cursor reaches no later than the loop condition
fails, so the embedding is exact. -/
def forRemoveGo [DecidableEq α] (p : α → Bool) : ℕ → ℕ → List α → List α
  | 0, _, lst => lst
  | n + 1, i, lst =>
    match lst[i]? with
    | none => lst
    | some x =>
      if p x then forRemoveGo p n (i + 1) (removeFirst lst x)
      else forRemoveGo p n (i + 1) lst

/-- Python `for station in lst: if p(station): lst.remove(station)`. -/
def forRemove [DecidableEq α] (p : α → Bool) (lst : List α) : List α :=
  forRemoveGo p lst.length 0 lst

/-- Collection phase of `findStations` (lines 69-80): every station of each
layer intersecting the bounding box, tagged with its mode, in layer order
Bahn, Bus, Rad, Auto. -/
def tagStations (l : List Pt) (m : Mode) (bbox : BBox) : List (Pt × Mode) :=
  (l.filter (fun p => ptInBBox p bbox)).map (fun p => (p, m))

/-- All four layers collected (lines 67-80). -/
def collectStations (bahnS busS radS parkS : List Pt) (bbox : BBox) :
    List (Pt × Mode) :=
  tagStations bahnS .bahn bbox ++ tagStations busS .bus bbox ++
    tagStations radS .rad bbox ++ tagStations parkS .auto bbox

/-- Obstacle-exclusion phase of `findStations` (lines 82-85): for each
building, a Python removal loop over the station list. -/
def removeInBuildings (bounds : List Rect) (stations : List (Pt × Mode)) :
    List (Pt × Mode) :=
  bounds.foldl (fun st g => forRemove (fun s => ptInRect s.1 g) st) stations

/-- The station list `findStations` holds right before its length test. -/
def collectAndFilter (bahnS busS radS parkS : List Pt) (bbox : BBox)
    (bounds : List Rect) : List (Pt × Mode) :=
  removeInBuildings bounds (collectStations bahnS busS radS parkS bbox)

/-- Embedding of `findStations` (lines 55-90): collect, exclude stations in
buildings, and when fewer than 5 remain recurse on `bbox.buffer(100)` with
the same obstacle list.  The Python recursion is unbounded; `fuel` makes it
a total function, with `none` standing for non-termination within `fuel`
expansions. -/
def findStations (fuel : ℕ) (bahnS busS radS parkS : List Pt) (bbox : BBox)
    (bounds : List Rect) : Option (List (Pt × Mode)) :=
  match fuel with
  | 0 => none
  | fuel + 1 =>
    let st := collectAndFilter bahnS busS radS parkS bbox bounds
    if st.length < 5 then
      findStations fuel bahnS busS radS parkS (bbox.buffer 100) bounds
    else some st

/-- Python exceptions that the crowd generator can raise: `ValueError` from
`random.randint` on an empty range, `IndexError` from list indexing, and
`RecursionError` when `randomPoint` recursion exceeds the fuel. -/
inductive PErr where
  | emptyRange
  | indexOOB
  | fuelOut
deriving DecidableEq, Repr

/-- The seeded Mersenne Twister, modelled as two oracle streams with
cursors: `fQ` yields the values of `random.random()`/`random.uniform`
draws (as the uniform variate in `[0,1]`), `fN` the raw draws behind
`random.randint`. -/
structure R where
  fQ : ℕ → ℚ
  iQ : ℕ
  fN : ℕ → ℕ
  iN : ℕ

/-- Draw the next uniform variate. -/
def nextQ (r : R) : ℚ × R :=
  (r.fQ r.iQ, { r with iQ := r.iQ + 1 })

/-- Draw the next raw integer. -/
def nextN (r : R) : ℕ × R :=
  (r.fN r.iN, { r with iN := r.iN + 1 })

/-- `random.randint(0, n)`: raises `ValueError` (empty range) when `n < 0`,
otherwise returns a value in `[0, n]` (the raw draw reduced mod `n + 1`). -/
def randint0 (n : ℤ) (k : ℕ) : Except PErr ℕ :=
  if n < 0 then .error .emptyRange else .ok (k % (n.toNat + 1))

/-- Python list indexing `l[i]`: `IndexError` when out of bounds. -/
def pyGet (l : List α) (i : ℕ) : Except PErr α :=
  match l[i]? with
  | some x => .ok x
  | none => .error .indexOOB

/-- `l[random.randint(0, len(l) - 1)]`, the tool's uniform pick from a
list (lines 334-335 and analogues): first the `randint`, then the
indexing. -/
def pyChoice (l : List α) (k : ℕ) : Except PErr α :=
  match randint0 ((l.length : ℤ) - 1) k with
  | .error e => .error e
  | .ok i => pyGet l i

/-- The mode selection of one pedestrian (lines 332-348): a uniform draw
`x` walks the cumulative factors bahn, bahn+bus, bahn+bus+rad, and the
matching mode's gateway list is picked from. -/
def selectModeStep (f : ℚ × ℚ × ℚ × ℚ) (bahnPeds busPeds radPeds autoPeds :
    List Pt) (x : ℚ) (k : ℕ) : Except PErr Pt :=
  if x < f.1 then pyChoice bahnPeds k
  else if x < f.1 + f.2.1 then pyChoice busPeds k
  else if x < f.1 + f.2.1 + f.2.2.1 then pyChoice radPeds k
  else pyChoice autoPeds k

/-- The `for pts in startPositions` loop inside `randomPoint` (lines
188-194), with `rp` the discarded recursive call: when the candidate `p` is
within 0.3 of the cursor element the code recurses, throws the result away
(keeping only the advanced RNG state) and continues; on the first cursor
element at distance at least 0.3 it returns `p` immediately, and it also
returns `p` when the loop runs out. -/
def rpLoopAux (rp : R → Except PErr (Pt × R)) (p : Pt) :
    List Pt → R → Except PErr (Pt × R)
  | [], r => .ok (p, r)
  | a :: rest, r =>
    if distSq p a < 9/100 then
      match rp r with
      | .error e => .error e
      | .ok (_, r2) => rpLoopAux rp p rest r2
    else .ok (p, r)

/-- Embedding of `randomPoint(point, startPositions)` (lines 173-194): a
candidate uniform in the 10 by 10 square about `point`, then the flawed
minimum-separation loop.  `fuel` bounds the recursion depth
(`RecursionError` in Python). -/
def randomPoint : ℕ → Pt → List Pt → R → Except PErr (Pt × R)
  | 0, _, _, _ => .error .fuelOut
  | fuel + 1, point, startPositions, r =>
    let (u1, r1) := nextQ r
    let (u2, r2) := nextQ r1
    let p : Pt := ⟨point.x - 5 + 10 * u1, point.y - 5 + 10 * u2⟩
    rpLoopAux (randomPoint fuel point startPositions) p startPositions r2

/-- The pedestrian placement loop of `defineStartVariables` (lines
331-348): per pedestrian, a uniform draw selects the mode, a gateway of
that mode is picked, and `randomPoint` places the start point, which is
appended to the running list. -/
def crowdLoop (fuel : ℕ) (f : ℚ × ℚ × ℚ × ℚ)
    (bahnPeds busPeds radPeds autoPeds : List Pt) :
    ℕ → List Pt → R → Except PErr (List Pt × R)
  | 0, acc, r => .ok (acc, r)
  | n + 1, acc, r =>
    let (x, r1) := nextQ r
    let (k, r2) := nextN r1
    match selectModeStep f bahnPeds busPeds radPeds autoPeds x k with
    | .error e => .error e
    | .ok gw =>
      match randomPoint fuel gw acc r2 with
      | .error e => .error e
      | .ok (p, r3) => crowdLoop fuel f bahnPeds busPeds radPeds autoPeds n
          (acc ++ [p]) r3

/-- The crowd generator: factors from `factoring` on the grouped gateway
lists (line 327), then the placement loop starting from the empty list. -/
def generateCrowd (fuel : ℕ) (bahnPeds busPeds radPeds autoPeds : List Pt)
    (peds : ℕ) (r : R) : Except PErr (List Pt × R) :=
  crowdLoop fuel (factoring bahnPeds busPeds radPeds autoPeds)
    bahnPeds busPeds radPeds autoPeds peds [] r

/-- The start-point list of a crowd-generation run, with `none` for any
raised exception. -/
def crowdPoints (fuel : ℕ) (bahnPeds busPeds radPeds autoPeds : List Pt)
    (peds : ℕ) (r : R) : Option (List Pt) :=
  match generateCrowd fuel bahnPeds busPeds radPeds autoPeds peds r with
  | .ok (l, _) => some l
  | .error _ => none

/-- One row of `data/pedMission.csv` (lines 364-375): start point, the
fixed mental-model tag, and the bracketed waypoint list. -/
structure Mission where
  start : Pt
  mentalModel : String
  wktWayPoints : List Pt
deriving DecidableEq, Repr

/-- The constant mental-model column value. -/
def mentalModelTag : String := "FollowWayPointsMentalModel"

/-- Four waypoint draws `startPositions[random.randint(0, len - 1)]`, left
to right (line 371). -/
def draw4 (full : List Pt) (r : R) : Except PErr ((List Pt) × R) :=
  let (k1, r1) := nextN r
  match pyChoice full k1 with
  | .error e => .error e
  | .ok w1 =>
    let (k2, r2) := nextN r1
    match pyChoice full k2 with
    | .error e => .error e
    | .ok w2 =>
      let (k3, r3) := nextN r2
      match pyChoice full k3 with
      | .error e => .error e
      | .ok w3 =>
        let (k4, r4) := nextN r3
        match pyChoice full k4 with
        | .error e => .error e
        | .ok w4 => .ok ([w1, w2, w3, w4], r4)

/-- The mission-writing loop (lines 369-375): one Mission per start point;
with a target set (`target != 0`) the waypoint list is the single target,
otherwise four random start points drawn with replacement from the full
list. -/
def genMissions (full : List Pt) (target : Option Pt) :
    List Pt → R → Except PErr (List Mission × R)
  | [], r => .ok ([], r)
  | v :: rest, r =>
    match target with
    | some t =>
      match genMissions full (some t) rest r with
      | .error e => .error e
      | .ok (ms, r2) => .ok (⟨v, mentalModelTag, [t]⟩ :: ms, r2)
    | none =>
      match draw4 full r with
      | .error e => .error e
      | .ok (ws, r2) =>
        match genMissions full none rest r2 with
        | .error e => .error e
        | .ok (ms, r3) => .ok (⟨v, mentalModelTag, ws⟩ :: ms, r3)

/-- The whole `defineStartVariables` pipeline (lines 239-375) on explicit
inputs: region filter, gateway locator, grouping by mode tag, crowd
generation, mission generation.  File writing is the identity on the data
it round-trips and is omitted. -/
def pipeline (fuel : ℕ) (buildings : List Rect)
    (bahnS busS radS parkS : List Pt) (box : BBox) (peds : ℕ)
    (target : Option Pt) (r : R) : Except PErr (List Pt × List Mission) :=
  let bounds := defineBorders buildings box
  match findStations fuel bahnS busS radS parkS box bounds with
  | none => .error .fuelOut
  | some stations =>
    let bahnPeds := (stations.filter (fun s => decide (s.2 = Mode.bahn))).map
      Prod.fst
    let busPeds := (stations.filter (fun s => decide (s.2 = Mode.bus))).map
      Prod.fst
    let radPeds := (stations.filter (fun s => decide (s.2 = Mode.rad))).map
      Prod.fst
    let autoPeds := (stations.filter (fun s => decide (s.2 = Mode.auto))).map
      Prod.fst
    match generateCrowd fuel bahnPeds busPeds radPeds autoPeds peds r with
    | .error e => .error e
    | .ok (sps, r2) =>
      match genMissions sps target sps r2 with
      | .error e => .error e
      | .ok (ms, _) => .ok (sps, ms)

/-- The uniform-variate stream exhibiting the C1 separation failure: draws
for two pedestrians from a single rail gateway at the origin; the second
candidate lands at distance 0.1 of the first start point and is returned
anyway. -/
def rngC1 : R :=
  ⟨fun n => List.getD [0, 1/2, 1/2, 0, 51/100, 1/2, 1/2, 0] n 0, 0,
    fun _ => 0, 0⟩

/-- C10: `factoring` is a total function (it is embedded as one: the Python
body is a straight-line decision tree with no raise and no indexing) and on
the all-empty input it returns weight 1 for the car mode and 0 elsewhere. -/
theorem factoring_all_empty_total :
    factoring [] [] [] [] = (0, 0, 0, 1) := by
  decide

/-- C3 counterexample: on the all-empty input the car mode has gateway
count 0 yet receives weight 1, not 0, refuting the claim as stated over
every input. -/
theorem factoring_zero_weight_cex :
    ([] : List Pt).length = 0 ∧ (factoring [] [] [] []).2.2.2 ≠ 0 := by
  decide

/-- C3 (amended): for every input with at least one non-empty mode, the four
factors returned by `factoring` sum to exactly 1, and every mode whose
gateway list is empty receives factor exactly 0. -/
theorem factoring_sum_one_zero_modes (b bu r a : List Pt)
    (h : b ≠ [] ∨ bu ≠ [] ∨ r ≠ [] ∨ a ≠ []) :
    (factoring b bu r a).1 + (factoring b bu r a).2.1 +
      (factoring b bu r a).2.2.1 + (factoring b bu r a).2.2.2 = 1 ∧
    (b = [] → (factoring b bu r a).1 = 0) ∧
    (bu = [] → (factoring b bu r a).2.1 = 0) ∧
    (r = [] → (factoring b bu r a).2.2.1 = 0) ∧
    (a = [] → (factoring b bu r a).2.2.2 = 0) := by
  rcases b with _ | ⟨p, b⟩ <;> rcases bu with _ | ⟨q, bu⟩ <;>
    rcases r with _ | ⟨s, r⟩ <;> rcases a with _ | ⟨t, a⟩ <;>
    simp_all [factoring] <;> norm_num

/-- Witness for C3's amended theorem at a concrete input: one rail gateway,
the other modes empty. -/
theorem factoring_sum_one_zero_modes_witness :
    (factoring [⟨0, 0⟩] [] [] []).1 + (factoring [⟨0, 0⟩] [] [] []).2.1 +
      (factoring [⟨0, 0⟩] [] [] []).2.2.1 +
      (factoring [⟨0, 0⟩] [] [] []).2.2.2 = 1 ∧
    (([] : List Pt) = [] → (factoring [⟨0, 0⟩] [] [] []).2.1 = 0) := by
  have h := factoring_sum_one_zero_modes [⟨0, 0⟩] [] [] []
    (Or.inl (by decide))
  exact ⟨h.1, fun _ => h.2.2.1 rfl⟩

/-- C4: `factoring` is a pure function of the four availability bits, and on
every pattern with at least one mode present it returns exactly the weight
tuple of the corresponding row of the spec's section 4.3 table. -/
theorem factoring_matches_table (b bu r a : List Pt)
    (_h : b ≠ [] ∨ bu ≠ [] ∨ r ≠ [] ∨ a ≠ []) :
    factoring b bu r a =
      modalSplitTable (!b.isEmpty) (!bu.isEmpty) (!r.isEmpty) (!a.isEmpty) := by
  rcases b with _ | ⟨p, b⟩ <;> rcases bu with _ | ⟨q, bu⟩ <;>
    rcases r with _ | ⟨s, r⟩ <;> rcases a with _ | ⟨t, a⟩ <;>
    simp [factoring, modalSplitTable, List.isEmpty]

/-- Witness for C4 at a concrete input with all four modes available: the
returned tuple is the table's all-present row (0.55, 0.25, 0.10, 0.10). -/
theorem factoring_matches_table_witness :
    factoring [⟨0, 0⟩] [⟨1, 0⟩] [⟨2, 0⟩] [⟨3, 0⟩] =
      modalSplitTable true true true true ∧
    modalSplitTable true true true true = (55/100, 25/100, 10/100, 10/100) := by
  refine ⟨?_, by norm_num [modalSplitTable]⟩
  have h := factoring_matches_table [⟨0, 0⟩] [⟨1, 0⟩] [⟨2, 0⟩] [⟨3, 0⟩]
    (Or.inl (by decide))
  simpa using h

theorem rectGapSq_nonneg (a b : Rect) : 0 ≤ rectGapSq a b := by
  unfold rectGapSq
  exact add_nonneg (mul_self_nonneg _) (mul_self_nonneg _)

/-- C8: the region filter returns a subsequence of its input; a polygon is
kept exactly when it intersects the box buffered by 50; in particular a
polygon intersecting the (non-negatively buffered) box itself is kept, and
one not intersecting the buffered box is never kept (the backward direction
of the iff). -/
theorem defineBorders_spec (buildings : List Rect) (bbox : BBox) :
    (defineBorders buildings bbox).Sublist buildings ∧
    (∀ b, b ∈ defineBorders buildings bbox ↔
      b ∈ buildings ∧ rectInBBox b (bbox.buffer 50) = true) ∧
    (∀ b ∈ buildings, rectInBBox b bbox = true → 0 ≤ bbox.r →
      b ∈ defineBorders buildings bbox) := by
  refine ⟨List.filter_sublist _,
    fun b => by simp [defineBorders, List.mem_filter], ?_⟩
  intro b hb hin hr
  rw [defineBorders, List.mem_filter]
  refine ⟨hb, ?_⟩
  simp only [rectInBBox, BBox.buffer, decide_eq_true_eq] at hin ⊢
  have h0 := rectGapSq_nonneg b bbox.rect
  nlinarith [hin, hr]

/-- Witness for C8 at a concrete input: a building inside the box is kept. -/
theorem defineBorders_spec_witness :
    (⟨0, 0, 10, 10⟩ : Rect) ∈
      defineBorders [⟨0, 0, 10, 10⟩] ⟨⟨0, 0, 100, 100⟩, 0⟩ :=
  (defineBorders_spec [⟨0, 0, 10, 10⟩] ⟨⟨0, 0, 100, 100⟩, 0⟩).2.2
    ⟨0, 0, 10, 10⟩ (by simp)
    (by norm_num [rectInBBox, rectGapSq, rgapX, rgapY]) (le_refl 0)

theorem findStations_some_length (fuel : ℕ) :
    ∀ (b bu r p : List Pt) (box : BBox) (bd : List Rect)
      (l : List (Pt × Mode)),
      findStations fuel b bu r p box bd = some l → 5 ≤ l.length := by
  induction fuel with
  | zero =>
    intro b bu r p box bd l h
    simp [findStations] at h
  | succ n ih =>
    intro b bu r p box bd l h
    rw [findStations] at h
    by_cases hc : (collectAndFilter b bu r p box bd).length < 5
    · rw [if_pos hc] at h
      exact ih b bu r p (box.buffer 100) bd l h
    · rw [if_neg hc] at h
      cases h
      omega

/-- C6: whenever the gateway locator returns a list, that list has at least
5 gateways; when the current box already yields at least 5 after obstacle
exclusion the locator returns that list with no expansion; and when it
yields fewer than 5 the locator re-runs itself on the box buffered by 100
with the obstacle list unchanged. -/
theorem findStations_expansion_spec (fuel : ℕ) (b bu r p : List Pt)
    (box : BBox) (bd : List Rect) :
    (∀ l, findStations fuel b bu r p box bd = some l → 5 ≤ l.length) ∧
    (5 ≤ (collectAndFilter b bu r p box bd).length →
      findStations (fuel + 1) b bu r p box bd =
        some (collectAndFilter b bu r p box bd)) ∧
    ((collectAndFilter b bu r p box bd).length < 5 →
      findStations (fuel + 1) b bu r p box bd =
        findStations fuel b bu r p (box.buffer 100) bd) := by
  refine ⟨fun l h => findStations_some_length fuel b bu r p box bd l h,
    fun h5 => ?_, fun hlt => ?_⟩
  · rw [findStations, if_neg (by omega)]
  · rw [findStations, if_pos hlt]

/-- Witness for C6 at a concrete input: five rail stations inside the box
with no obstacles already meet the threshold, so the locator returns them
with no expansion. -/
theorem findStations_expansion_spec_witness :
    findStations 1 [⟨1, 1⟩, ⟨2, 1⟩, ⟨3, 1⟩, ⟨4, 1⟩, ⟨5, 1⟩] [] [] []
      ⟨⟨0, 0, 10, 10⟩, 0⟩ [] =
    some (collectAndFilter [⟨1, 1⟩, ⟨2, 1⟩, ⟨3, 1⟩, ⟨4, 1⟩, ⟨5, 1⟩] [] [] []
      ⟨⟨0, 0, 10, 10⟩, 0⟩ []) :=
  (findStations_expansion_spec 0 [⟨1, 1⟩, ⟨2, 1⟩, ⟨3, 1⟩, ⟨4, 1⟩, ⟨5, 1⟩]
      [] [] [] ⟨⟨0, 0, 10, 10⟩, 0⟩ []).2.1
    (by norm_num [collectAndFilter, collectStations, tagStations,
      removeInBuildings, forRemove, forRemoveGo, ptInBBox, ptRectGapSq,
      gapX, gapY, List.filter])

/-- C2 evaluation: with one building covering `(0,0)-(10,10)` and two
consecutive rail stations inside it, the in-place removal loop skips the
second one, so `findStations` returns a gateway list containing the
station `(2,2)` even though it intersects the obstacle. -/
theorem findStations_obstacle_cex :
    findStations 1
      [⟨1, 1⟩, ⟨2, 2⟩, ⟨20, 20⟩, ⟨21, 20⟩, ⟨22, 20⟩, ⟨23, 20⟩, ⟨24, 20⟩]
      [] [] [] ⟨⟨-100, -100, 100, 100⟩, 0⟩ [⟨0, 0, 10, 10⟩] =
    some [(⟨2, 2⟩, Mode.bahn), (⟨20, 20⟩, Mode.bahn), (⟨21, 20⟩, Mode.bahn),
      (⟨22, 20⟩, Mode.bahn), (⟨23, 20⟩, Mode.bahn), (⟨24, 20⟩, Mode.bahn)] ∧
    ptInRect ⟨2, 2⟩ ⟨0, 0, 10, 10⟩ = true := by
  have h1 : collectAndFilter
      [⟨1, 1⟩, ⟨2, 2⟩, ⟨20, 20⟩, ⟨21, 20⟩, ⟨22, 20⟩, ⟨23, 20⟩, ⟨24, 20⟩]
      [] [] [] ⟨⟨-100, -100, 100, 100⟩, 0⟩ [⟨0, 0, 10, 10⟩] =
      [(⟨2, 2⟩, Mode.bahn), (⟨20, 20⟩, Mode.bahn), (⟨21, 20⟩, Mode.bahn),
        (⟨22, 20⟩, Mode.bahn), (⟨23, 20⟩, Mode.bahn), (⟨24, 20⟩, Mode.bahn)] := by
    have hc : collectStations
        [⟨1, 1⟩, ⟨2, 2⟩, ⟨20, 20⟩, ⟨21, 20⟩, ⟨22, 20⟩, ⟨23, 20⟩, ⟨24, 20⟩]
        [] [] [] ⟨⟨-100, -100, 100, 100⟩, 0⟩ =
        [(⟨1, 1⟩, Mode.bahn), (⟨2, 2⟩, Mode.bahn), (⟨20, 20⟩, Mode.bahn),
          (⟨21, 20⟩, Mode.bahn), (⟨22, 20⟩, Mode.bahn), (⟨23, 20⟩, Mode.bahn),
          (⟨24, 20⟩, Mode.bahn)] := by
      norm_num [collectStations, tagStations, ptInBBox, ptRectGapSq, gapX,
        gapY, List.filter]
    rw [collectAndFilter, hc]
    norm_num [removeInBuildings, forRemove, forRemoveGo, removeFirst,
      ptInRect, List.getElem?_cons]
  refine ⟨?_, by norm_num [ptInRect]⟩
  rw [findStations, h1]
  norm_num

theorem pyChoice_nil (k : ℕ) : pyChoice ([] : List Pt) k =
    Except.error PErr.emptyRange := by
  simp [pyChoice, randint0]

theorem pyChoice_ne_indexOOB (l : List Pt) (k : ℕ) :
    pyChoice l k ≠ Except.error PErr.indexOOB := by
  cases l with
  | nil => simp [pyChoice, randint0]
  | cons a t =>
    have hge : ¬ ((t.length : ℤ) < 0) := by omega
    have hlt : k % (t.length + 1) < (a :: t).length := by
      simp only [List.length_cons]
      exact Nat.mod_lt _ (Nat.succ_pos _)
    simp [pyChoice, randint0, pyGet, hge, List.getElem?_eq_getElem hlt]

theorem pyChoice_mem (l : List Pt) (k : ℕ) (h : l ≠ []) :
    ∃ w, pyChoice l k = Except.ok w ∧ w ∈ l := by
  cases l with
  | nil => exact absurd rfl h
  | cons a t =>
    have hge : ¬ ((t.length : ℤ) < 0) := by omega
    have hlt : k % (t.length + 1) < (a :: t).length := by
      simp only [List.length_cons]
      exact Nat.mod_lt _ (Nat.succ_pos _)
    refine ⟨(a :: t).get ⟨k % (t.length + 1), hlt⟩, ?_,
      List.get_mem _ _ hlt⟩
    simp [pyChoice, randint0, pyGet, hge, List.getElem?_eq_getElem hlt]

/-- C5: the per-pedestrian mode-selection step never raises an index error;
whenever the mode selected by the cumulative-distribution walk has an empty
gateway list, it raises the empty-range `ValueError` from `randint` before
any list indexing happens. -/
theorem selectModeStep_error_spec (f : ℚ × ℚ × ℚ × ℚ)
    (bahnPeds busPeds radPeds autoPeds : List Pt) (x : ℚ) (k : ℕ) :
    selectModeStep f bahnPeds busPeds radPeds autoPeds x k ≠
      Except.error PErr.indexOOB ∧
    (x < f.1 → bahnPeds = [] →
      selectModeStep f bahnPeds busPeds radPeds autoPeds x k =
        Except.error PErr.emptyRange) ∧
    (¬ x < f.1 → x < f.1 + f.2.1 → busPeds = [] →
      selectModeStep f bahnPeds busPeds radPeds autoPeds x k =
        Except.error PErr.emptyRange) ∧
    (¬ x < f.1 → ¬ x < f.1 + f.2.1 → x < f.1 + f.2.1 + f.2.2.1 →
      radPeds = [] →
      selectModeStep f bahnPeds busPeds radPeds autoPeds x k =
        Except.error PErr.emptyRange) ∧
    (¬ x < f.1 → ¬ x < f.1 + f.2.1 → ¬ x < f.1 + f.2.1 + f.2.2.1 →
      autoPeds = [] →
      selectModeStep f bahnPeds busPeds radPeds autoPeds x k =
        Except.error PErr.emptyRange) := by
  refine ⟨?_, ?_, ?_, ?_, ?_⟩
  · unfold selectModeStep
    split_ifs <;> exact pyChoice_ne_indexOOB _ _
  · intro hx hb
    unfold selectModeStep
    rw [if_pos hx, hb]
    exact pyChoice_nil _
  · intro hx1 hx2 hb
    unfold selectModeStep
    rw [if_neg hx1, if_pos hx2, hb]
    exact pyChoice_nil _
  · intro hx1 hx2 hx3 hb
    unfold selectModeStep
    rw [if_neg hx1, if_neg hx2, if_pos hx3, hb]
    exact pyChoice_nil _
  · intro hx1 hx2 hx3 hb
    unfold selectModeStep
    rw [if_neg hx1, if_neg hx2, if_neg hx3, hb]
    exact pyChoice_nil _

/-- Witness for C5: with factors (1,0,0,0) and an empty rail list, the draw
0 selects rail and the step raises the empty-range error, not an index
error. -/
theorem selectModeStep_error_spec_witness :
    selectModeStep (1, 0, 0, 0) [] [] [] [] 0 0 =
      Except.error PErr.emptyRange ∧
    selectModeStep (1, 0, 0, 0) [] [] [] [] 0 0 ≠
      Except.error PErr.indexOOB := by
  have h := selectModeStep_error_spec (1, 0, 0, 0) [] [] [] [] 0 0
  exact ⟨h.2.1 (by norm_num) rfl, h.1⟩

/-- C9: the pipeline is a deterministic function of the random seed (the
oracle streams) and the inputs: two runs with equal seeds, equal bounding
boxes and equal input layers return equal start-point lists and mission
tables. -/
theorem pipeline_deterministic (fuel : ℕ)
    (bds1 bds2 : List Rect) (b1 b2 bu1 bu2 rd1 rd2 pk1 pk2 : List Pt)
    (box1 box2 : BBox) (peds : ℕ) (tgt : Option Pt) (r1 r2 : R)
    (hb : bds1 = bds2) (h1 : b1 = b2) (h2 : bu1 = bu2) (h3 : rd1 = rd2)
    (h4 : pk1 = pk2) (hbox : box1 = box2) (hr : r1 = r2) :
    pipeline fuel bds1 b1 bu1 rd1 pk1 box1 peds tgt r1 =
      pipeline fuel bds2 b2 bu2 rd2 pk2 box2 peds tgt r2 := by
  subst hb h1 h2 h3 h4 hbox hr
  rfl

/-- Witness for C9 at a concrete input. -/
theorem pipeline_deterministic_witness :
    pipeline 1 [] [⟨1, 1⟩, ⟨2, 1⟩, ⟨3, 1⟩, ⟨4, 1⟩, ⟨5, 1⟩] [] [] []
      ⟨⟨0, 0, 10, 10⟩, 0⟩ 0 none rngC1 =
    pipeline 1 [] [⟨1, 1⟩, ⟨2, 1⟩, ⟨3, 1⟩, ⟨4, 1⟩, ⟨5, 1⟩] [] [] []
      ⟨⟨0, 0, 10, 10⟩, 0⟩ 0 none rngC1 :=
  pipeline_deterministic 1 [] [] [⟨1, 1⟩, ⟨2, 1⟩, ⟨3, 1⟩, ⟨4, 1⟩, ⟨5, 1⟩]
    [⟨1, 1⟩, ⟨2, 1⟩, ⟨3, 1⟩, ⟨4, 1⟩, ⟨5, 1⟩] [] [] [] [] [] []
    ⟨⟨0, 0, 10, 10⟩, 0⟩ ⟨⟨0, 0, 10, 10⟩, 0⟩ 0 none rngC1 rngC1
    rfl rfl rfl rfl rfl rfl rfl

theorem draw4_spec (full : List Pt) (h : full ≠ []) (r : R) :
    ∃ ws r2, draw4 full r = Except.ok (ws, r2) ∧ ws.length = 4 ∧
      ∀ w ∈ ws, w ∈ full := by
  obtain ⟨w1, hw1, hm1⟩ := pyChoice_mem full (r.fN r.iN) h
  obtain ⟨w2, hw2, hm2⟩ := pyChoice_mem full (r.fN (r.iN + 1)) h
  obtain ⟨w3, hw3, hm3⟩ := pyChoice_mem full (r.fN (r.iN + 1 + 1)) h
  obtain ⟨w4, hw4, hm4⟩ := pyChoice_mem full (r.fN (r.iN + 1 + 1 + 1)) h
  refine ⟨[w1, w2, w3, w4], { r with iN := r.iN + 1 + 1 + 1 + 1 }, ?_, rfl, ?_⟩
  · simp [draw4, nextN, hw1, hw2, hw3, hw4]
  · intro w hw
    simp only [List.mem_cons, List.not_mem_nil, or_false] at hw
    rcases hw with rfl | rfl | rfl | rfl
    · exact hm1
    · exact hm2
    · exact hm3
    · exact hm4

/-- C7: when a target is supplied, every emitted Mission has the single
target coordinate as its full waypoint list, whatever the start-point list
is; when no target is supplied (and at least one start point exists), the
generator succeeds and every Mission carries exactly 4 waypoints, each
drawn from the full start-point list (with replacement). -/
theorem genMissions_target_spec (full sps : List Pt) (t : Pt) (r : R) :
    genMissions full (some t) sps r =
      Except.ok (sps.map (fun v => ⟨v, mentalModelTag, [t]⟩), r) ∧
    (full ≠ [] → ∃ ms r2, genMissions full none sps r = Except.ok (ms, r2) ∧
      ms.length = sps.length ∧
      ∀ m ∈ ms, m.wktWayPoints.length = 4 ∧
        ∀ w ∈ m.wktWayPoints, w ∈ full) := by
  constructor
  · induction sps generalizing r with
    | nil => simp [genMissions]
    | cons v rest ih => simp [genMissions, ih]
  · intro h
    induction sps generalizing r with
    | nil => exact ⟨[], r, rfl, rfl, by simp⟩
    | cons v rest ih =>
      obtain ⟨ws, r2, hd, hlen, hmem⟩ := draw4_spec full h r
      obtain ⟨ms, r3, hg, hl, hm⟩ := ih r2
      refine ⟨⟨v, mentalModelTag, ws⟩ :: ms, r3, ?_, by simp [hl], ?_⟩
      · simp [genMissions, hd, hg]
      · intro m hmm
        rcases List.mem_cons.mp hmm with rfl | hmm
        · exact ⟨hlen, hmem⟩
        · exact hm m hmm

/-- Witness for C7 at a concrete input: one start point, target (500,500)
in target mode, and the waypoint shape in random-wander mode. -/
theorem genMissions_target_spec_witness :
    genMissions [⟨1, 1⟩] (some ⟨500, 500⟩) [⟨1, 1⟩] rngC1 =
      Except.ok ([⟨⟨1, 1⟩, mentalModelTag, [⟨500, 500⟩]⟩], rngC1) ∧
    ∃ ms r2, genMissions [⟨1, 1⟩] none [⟨1, 1⟩] rngC1 = Except.ok (ms, r2) ∧
      ms.length = 1 ∧ ∀ m ∈ ms, m.wktWayPoints.length = 4 ∧
        ∀ w ∈ m.wktWayPoints, w ∈ [(⟨1, 1⟩ : Pt)] := by
  have h := genMissions_target_spec [⟨1, 1⟩] [⟨1, 1⟩] ⟨500, 500⟩ rngC1
  obtain ⟨ms, r2, h1, h2, h3⟩ := h.2 (by simp)
  exact ⟨by simpa using h.1, ms, r2, h1, by simpa using h2, h3⟩

/-- C1 evaluation: a crowd of 2 pedestrians drawn around a single rail
gateway at the origin, with the uniform stream `rngC1`.  The first start
point is the origin; the second candidate lands at (0.1, 0), is detected as
too close, yet `randomPoint` discards the result of its resampling
recursion and returns the rejected candidate, so the final start-point set
(of the right size 2) violates the 0.3 minimum separation. -/
theorem generateCrowd_separation_cex :
    crowdPoints 3 [⟨0, 0⟩] [] [] [] 2 rngC1 =
      some [⟨0, 0⟩, ⟨1/10, 0⟩] ∧
    distSq ⟨0, 0⟩ ⟨1/10, 0⟩ < 9/100 := by
  constructor
  · norm_num [crowdPoints, generateCrowd, crowdLoop, selectModeStep,
      factoring, pyChoice, randint0, pyGet, randomPoint, rpLoopAux, nextQ,
      nextN, rngC1, distSq, List.getD]
  · norm_num [distSq]
